import Mathlib

/-!
Shallow embedding of the capycoin ledger core (src/ledger.rs, src/account.rs,
src/message.rs, src/bin/core.rs).

Modelling conventions:
- UUIDs are abstracted as natural numbers; only equality of UUIDs matters
  to the code under verification.
- Timestamps (time::OffsetDateTime) are abstracted as integers; the code
  only compares them and passes them through. Calls to OffsetDateTime::now_utc
  are modelled by an explicit clock parameter.
- The SQLite store is a pair of row lists (accounts, transactions), in rowid
  (insertion) order. SELECT ... WHERE pk = ? is List.find?; UPDATE ... WHERE
  is a map over matching rows, returning the matched-row count as
  sqlite3_changes does; INSERT enforces the table constraints (primary key,
  CHECK funds >= 0 for accounts, CHECK amount > 0 and fee >= 0 for
  transactions). Dropping an uncommitted rusqlite transaction rolls back, so
  every error path returns the caller's original store.
- Rust i64 / i32 arithmetic is modelled over Int (no overflow in scope:
  the operations at issue stay far from the 64-bit bounds).
- The rusqlite error payload carried by SQLError is abstracted away.
-/

/-- Row of the accounts table (struct Account in account.rs). -/
structure AccountRow where
  account_id : Nat
  created : Int
  funds : Int
deriving DecidableEq, Repr

/-- Row of the transactions table (struct Transaction in ledger.rs). -/
structure Transaction where
  transaction_id : Nat
  timestamp : Int
  sender_account_id : Nat
  receiver_account_id : Nat
  amount : Int
  fee : Int
deriving DecidableEq, Repr

/-- Returned-only view of a committed transfer (struct TransactionReceipt). -/
structure TransactionReceipt where
  transaction_id : Nat
  timestamp : Int
  sender_account_id : Nat
  receiver_account_id : Nat
  sender_account_funds : Int
  fee : Int
deriving DecidableEq, Repr

/-- Result of save_account (struct AccountCreatedResult in account.rs). -/
structure AccountCreatedResult where
  account_id : Nat
  timestamp : Int
deriving DecidableEq, Repr

/-- The persistent store: both tables, rows in rowid (insertion) order. -/
structure Store where
  accounts : List AccountRow
  transactions : List Transaction
deriving DecidableEq, Repr

/-- Enum TransactionError of ledger.rs (SQLError payload abstracted). -/
inductive TransactionError where
  | SQLError
  | AmountIsZero
  | AmountIsNegative
  | FeeIsNegative
  | SenderAccountNotEnoughFunds
  | SenderAccountDoesNotExist
  | ReceiverAccountDoesNotExist
  | SenderReceiverAreTheSame
  | TransactionDoesNotExist
  | PermissionDenied
deriving DecidableEq, Repr

/-- Enum AccountError of account.rs (SQLError payload abstracted). -/
inductive AccountError where
  | SQLError
  | AccountAlreadyExists
  | AccountDoesNotExist
deriving DecidableEq, Repr

/-- Outcome of save_transaction: a receipt, a typed error, or the
process-aborting assertion failure at the unimplemented-fee assert. -/
inductive TxResult where
  | ok (receipt : TransactionReceipt)
  | err (e : TransactionError)
  | assertFailed
deriving DecidableEq, Repr

/-- SELECT funds FROM accounts WHERE account_id = ? (query_row: first match,
none when no row matches). -/
def selectFunds (accts : List AccountRow) (id : Nat) : Option Int :=
  (accts.find? (fun a => a.account_id == id)).map (fun a => a.funds)

/-- UPDATE accounts SET funds = v WHERE account_id = id; returns the number
of affected rows (sqlite3_changes) together with the updated table. -/
def updateSetFunds (accts : List AccountRow) (id : Nat) (v : Int) :
    Nat × List AccountRow :=
  ((accts.filter (fun a => a.account_id == id)).length,
   accts.map (fun a => if a.account_id == id then { a with funds := v } else a))

/-- UPDATE accounts SET funds = funds + d WHERE account_id = id; returns the
number of affected rows together with the updated table. -/
def updateAddFunds (accts : List AccountRow) (id : Nat) (d : Int) :
    Nat × List AccountRow :=
  ((accts.filter (fun a => a.account_id == id)).length,
   accts.map (fun a =>
     if a.account_id == id then { a with funds := a.funds + d } else a))

/-- INSERT INTO transactions VALUES (...): fails (none) on a primary-key
clash or on violating CHECK(amount > 0) or CHECK(fee >= 0). -/
def insertTransaction (txs : List Transaction) (t : Transaction) :
    Option (List Transaction) :=
  if txs.any (fun u => u.transaction_id == t.transaction_id)
      ∨ t.amount ≤ 0 ∨ t.fee < 0 then
    none
  else
    some (txs ++ [t])

/-- INSERT INTO accounts VALUES (...): fails (none) on a primary-key clash or
on violating CHECK(funds >= 0); both surface as a ConstraintViolation. -/
def insertAccount (accts : List AccountRow) (a : AccountRow) :
    Option (List AccountRow) :=
  if accts.any (fun b => b.account_id == a.account_id) ∨ a.funds < 0 then
    none
  else
    some (accts ++ [a])

/-- save_transaction of ledger.rs. The clock parameter now models the
OffsetDateTime::now_utc call that supplies the authoritative timestamp of
the persisted row and the receipt. Every non-ok outcome pairs with the
original store (the uncommitted rusqlite transaction is rolled back). -/
def save_transaction (s : Store) (t : Transaction) (now : Int) :
    TxResult × Store :=
  if t.amount = 0 then (.err .AmountIsZero, s)
  else if t.amount < 0 then (.err .AmountIsNegative, s)
  else if t.fee < 0 then (.err .FeeIsNegative, s)
  else if t.sender_account_id = t.receiver_account_id then
    (.err .SenderReceiverAreTheSame, s)
  else if t.fee ≠ 0 then (.assertFailed, s)
  else
    match selectFunds s.accounts t.sender_account_id with
    | none => (.err .SenderAccountDoesNotExist, s)
    | some funds =>
      let tx_funds := funds - (t.amount + t.fee)
      if tx_funds < 0 then (.err .SenderAccountNotEnoughFunds, s)
      else
        let r1 := updateSetFunds s.accounts t.sender_account_id tx_funds
        if r1.1 = 0 then (.err .SenderAccountDoesNotExist, s)
        else
          let r2 := updateAddFunds r1.2 t.receiver_account_id t.amount
          if r2.1 = 0 then (.err .ReceiverAccountDoesNotExist, s)
          else
            match insertTransaction s.transactions { t with timestamp := now } with
            | none => (.err .SQLError, s)
            | some txs =>
              (.ok { transaction_id := t.transaction_id,
                     timestamp := now,
                     sender_account_id := t.sender_account_id,
                     receiver_account_id := t.receiver_account_id,
                     sender_account_funds := tx_funds,
                     fee := t.fee },
               { accounts := r2.2, transactions := txs })

/-- save_account of account.rs. A ConstraintViolation from the INSERT maps to
AccountAlreadyExists; the clock parameter models the now_utc call producing
the result timestamp. Errors pair with the original store (rollback). -/
def save_account (s : Store) (a : AccountRow) (now : Int) :
    Except AccountError AccountCreatedResult × Store :=
  match insertAccount s.accounts a with
  | none => (.error .AccountAlreadyExists, s)
  | some accts =>
    (.ok { account_id := a.account_id, timestamp := now },
     { s with accounts := accts })

/-- load_account of account.rs. -/
def load_account (s : Store) (id : Nat) : Except AccountError AccountRow :=
  match s.accounts.find? (fun a => a.account_id == id) with
  | none => .error .AccountDoesNotExist
  | some a => .ok a

/-- get_accounts of account.rs (full scan, stored order). -/
def get_accounts (s : Store) : List AccountRow :=
  s.accounts

/-- get_transactions of ledger.rs: the WHERE clause of the SELECT applied in
stored (rowid) order; the query has no ORDER BY. -/
def get_transactions (s : Store) (account_id : Nat) (beginTime endTime : Int) :
    List Transaction :=
  s.transactions.filter (fun t =>
    (t.sender_account_id == account_id || t.receiver_account_id == account_id)
      && beginTime ≤ t.timestamp && t.timestamp ≤ endTime)

/-- get_transaction of ledger.rs: look the row up by primary key, then check
that the caller is the sender or the receiver. -/
def get_transaction (s : Store) (account_id : Nat) (transaction_id : Nat) :
    Except TransactionError Transaction :=
  match s.transactions.find? (fun t => t.transaction_id == transaction_id) with
  | none => .error .TransactionDoesNotExist
  | some t =>
    if t.sender_account_id == account_id || t.receiver_account_id == account_id
    then .ok t
    else .error .PermissionDenied

/-- Enum ClientMessage of message.rs. -/
inductive ClientMessage where
  | CreateNewAccount
  | GetAccount (account_id : Nat)
  | GetAccounts
  | GetTransactions (account_id : Nat) (time_range_start : Int)
      (time_range_end : Int)
  | GetTransaction (account_id : Nat) (transaction_id : Nat)
  | CreateTransaction (sender_id : Nat) (receiver_id : Nat) (amount : Int)
deriving DecidableEq, Repr

/-- Struct ClientMessagePacket of message.rs: the versioned request
envelope. -/
structure ClientMessagePacket where
  v : Int
  message_id : Nat
  message : ClientMessage
deriving DecidableEq, Repr

/-- Struct ServerError of message.rs: a stable string tag plus a debug
rendering of the originating typed error. -/
structure ServerError where
  error_type : String
  error_message : String
deriving DecidableEq, Repr

deriving instance DecidableEq for Except

/-- Enum ServerMessage of message.rs. -/
inductive ServerMessage where
  | CreateNewAccountResponse (r : Except ServerError AccountCreatedResult)
  | GetAccountResponse (r : Except ServerError AccountRow)
  | GetAccountsResponse (r : Except ServerError (List AccountRow))
  | GetTransactionsResponse (r : Except ServerError (List Transaction))
  | GetTransactionResponse (r : Except ServerError Transaction)
  | CreateTransactionResponse (r : Except ServerError TransactionReceipt)
deriving DecidableEq, Repr

/-- Struct ServerMessagePacket of message.rs: the response envelope. -/
structure ServerMessagePacket where
  v : Int
  message_id : Nat
  message : ServerMessage
deriving DecidableEq, Repr

/-- Debug rendering of a TransactionError variant, as the derived Debug
formatting used by the From conversion in message.rs produces it. -/
def TransactionError.debugStr : TransactionError → String
  | .SQLError => "SQLError"
  | .AmountIsZero => "AmountIsZero"
  | .AmountIsNegative => "AmountIsNegative"
  | .FeeIsNegative => "FeeIsNegative"
  | .SenderAccountNotEnoughFunds => "SenderAccountNotEnoughFunds"
  | .SenderAccountDoesNotExist => "SenderAccountDoesNotExist"
  | .ReceiverAccountDoesNotExist => "ReceiverAccountDoesNotExist"
  | .SenderReceiverAreTheSame => "SenderReceiverAreTheSame"
  | .TransactionDoesNotExist => "TransactionDoesNotExist"
  | .PermissionDenied => "PermissionDenied"

/-- Debug rendering of an AccountError variant. -/
def AccountError.debugStr : AccountError → String
  | .SQLError => "SQLError"
  | .AccountAlreadyExists => "AccountAlreadyExists"
  | .AccountDoesNotExist => "AccountDoesNotExist"

/-- From TransactionError for ServerError (message.rs). -/
def serverErrorOfTransactionError (e : TransactionError) : ServerError :=
  { error_type := "TransactionError", error_message := e.debugStr }

/-- From AccountError for ServerError (message.rs). -/
def serverErrorOfAccountError (e : AccountError) : ServerError :=
  { error_type := "AccountError", error_message := e.debugStr }

/-- Map a typed account result into the wire result form. -/
def mapAccountResult {α : Type} (r : Except AccountError α) :
    Except ServerError α :=
  match r with
  | .ok x => .ok x
  | .error e => .error (serverErrorOfAccountError e)

/-- Map a typed transaction result into the wire result form. -/
def mapTransactionResult {α : Type} (r : Except TransactionError α) :
    Except ServerError α :=
  match r with
  | .ok x => .ok x
  | .error e => .error (serverErrorOfTransactionError e)

/-- ServerMessage.as_resp_for of message.rs: wrap a response payload in an
envelope carrying the request's message_id and protocol version 1. -/
def ServerMessage.as_resp_for (m : ServerMessage) (req : ClientMessagePacket) :
    ServerMessagePacket :=
  { v := 1, message_id := req.message_id, message := m }

/-- message_dispatch of bin/core.rs. The freshId parameter models the
Uuid::new_v4 call made for a new account or transaction; now models the
clock. The CreateTransaction arm builds Transaction::new(sender, receiver,
amount, 0), so the fee is the literal 0. A none result models the process
abort of the unimplemented-fee assertion (no response is produced). -/
def message_dispatch (s : Store) (message : ClientMessagePacket)
    (now : Int) (freshId : Nat) : Option (ServerMessagePacket × Store) :=
  match message.message with
  | .CreateNewAccount =>
    let acct : AccountRow := { account_id := freshId, created := now, funds := 0 }
    let r := save_account s acct now
    some ((ServerMessage.CreateNewAccountResponse (mapAccountResult r.1)).as_resp_for message, r.2)
  | .GetAccount account_id =>
    some ((ServerMessage.GetAccountResponse (mapAccountResult (load_account s account_id))).as_resp_for message, s)
  | .GetAccounts =>
    some ((ServerMessage.GetAccountsResponse (.ok (get_accounts s))).as_resp_for message, s)
  | .GetTransactions account_id tstart tend =>
    some ((ServerMessage.GetTransactionsResponse (.ok (get_transactions s account_id tstart tend))).as_resp_for message, s)
  | .GetTransaction account_id transaction_id =>
    some ((ServerMessage.GetTransactionResponse (mapTransactionResult (get_transaction s account_id transaction_id))).as_resp_for message, s)
  | .CreateTransaction sender_id receiver_id amount =>
    let t : Transaction :=
      { transaction_id := freshId, timestamp := now,
        sender_account_id := sender_id, receiver_account_id := receiver_id,
        amount := amount, fee := 0 }
    match save_transaction s t now with
    | (.ok r, s1) =>
      some ((ServerMessage.CreateTransactionResponse (.ok r)).as_resp_for message, s1)
    | (.err e, s1) =>
      some ((ServerMessage.CreateTransactionResponse (.error (serverErrorOfTransactionError e))).as_resp_for message, s1)
    | (.assertFailed, _) => none

/-- JSON value tree: the wire form produced and consumed by serde_json, with
UUID and timestamp leaves abstracted the same way as in the data model. -/
inductive Json where
  | num (n : Int)
  | str (s : String)
  | obj (fields : List (String × Json))

/-- Field lookup in a JSON object (first binding wins, as serde does for the
fields it expects). -/
def Json.getField : Json → String → Option Json
  | .obj fields, k => fields.lookup k
  | _, _ => none

/-- Read a JSON leaf back as a UUID (abstracted as Nat). -/
def Json.asUuid : Json → Option Nat
  | .num n => if n < 0 then none else some n.toNat
  | _ => none

/-- Read a JSON leaf back as an integer. -/
def Json.asInt : Json → Option Int
  | .num n => some n
  | _ => none

/-- Serde encoding of ClientMessage: externally tagged variants, unit
variants as bare strings. -/
def ClientMessage.toJson : ClientMessage → Json
  | .CreateNewAccount => .str "CreateNewAccount"
  | .GetAccount account_id =>
    .obj [("GetAccount", .obj [("account_id", .num (Int.ofNat account_id))])]
  | .GetAccounts => .str "GetAccounts"
  | .GetTransactions account_id tstart tend =>
    .obj [("GetTransactions", .obj
      [("account_id", .num (Int.ofNat account_id)),
       ("time_range_start", .num tstart),
       ("time_range_end", .num tend)])]
  | .GetTransaction account_id transaction_id =>
    .obj [("GetTransaction", .obj
      [("account_id", .num (Int.ofNat account_id)),
       ("transaction_id", .num (Int.ofNat transaction_id))])]
  | .CreateTransaction sender_id receiver_id amount =>
    .obj [("CreateTransaction", .obj
      [("sender_id", .num (Int.ofNat sender_id)),
       ("receiver_id", .num (Int.ofNat receiver_id)),
       ("amount", .num amount)])]

/-- Serde decoding of ClientMessage: accepts exactly the shapes the encoder
produces (one externally tagged variant per object). -/
def ClientMessage.fromJson (j : Json) : Option ClientMessage :=
  match j with
  | .str "CreateNewAccount" => some .CreateNewAccount
  | .str "GetAccounts" => some .GetAccounts
  | .obj [("GetAccount", body)] => do
    let account_id ← (body.getField "account_id").bind Json.asUuid
    pure (.GetAccount account_id)
  | .obj [("GetTransactions", body)] => do
    let account_id ← (body.getField "account_id").bind Json.asUuid
    let tstart ← (body.getField "time_range_start").bind Json.asInt
    let tend ← (body.getField "time_range_end").bind Json.asInt
    pure (.GetTransactions account_id tstart tend)
  | .obj [("GetTransaction", body)] => do
    let account_id ← (body.getField "account_id").bind Json.asUuid
    let transaction_id ← (body.getField "transaction_id").bind Json.asUuid
    pure (.GetTransaction account_id transaction_id)
  | .obj [("CreateTransaction", body)] => do
    let sender_id ← (body.getField "sender_id").bind Json.asUuid
    let receiver_id ← (body.getField "receiver_id").bind Json.asUuid
    let amount ← (body.getField "amount").bind Json.asInt
    pure (.CreateTransaction sender_id receiver_id amount)
  | _ => none

/-- ClientMessagePacket.to_json of message.rs: serialise the envelope. -/
def ClientMessagePacket.to_json (p : ClientMessagePacket) : Json :=
  .obj [("v", .num p.v),
        ("message_id", .num (Int.ofNat p.message_id)),
        ("message", p.message.toJson)]

/-- ClientMessagePacket.from_json of message.rs: deserialise the envelope,
then reject any protocol version other than 1. -/
def ClientMessagePacket.from_json (j : Json) : Option ClientMessagePacket := do
  let v ← (j.getField "v").bind Json.asInt
  let message_id ← (j.getField "message_id").bind Json.asUuid
  let body ← j.getField "message"
  let message ← ClientMessage.fromJson body
  let msg : ClientMessagePacket :=
    { v := v, message_id := message_id, message := message }
  if msg.v = 1 then some msg else none


/-- Updating the rows matching one key with an id-preserving function
commutes with looking the same key up: the first match is transformed. -/
theorem find?_map_upd_same (l : List AccountRow) (id : Nat)
    (f : AccountRow → AccountRow)
    (hf : ∀ a, (f a).account_id = a.account_id) :
    (l.map (fun a => if a.account_id == id then f a else a)).find?
        (fun a => a.account_id == id)
      = (l.find? (fun a => a.account_id == id)).map f := by
  induction l with
  | nil => rfl
  | cons a tl ih =>
    cases hb : (a.account_id == id) with
    | true =>
      have hite : (if a.account_id == id then f a else a) = f a := by
        simp [hb]
      have hb2 : ((f a).account_id == id) = true := by
        rw [hf a]; exact hb
      rw [List.map_cons, hite, List.find?_cons, List.find?_cons, hb, hb2]
      rfl
    | false =>
      have hite : (if a.account_id == id then f a else a) = a := by
        simp [hb]
      rw [List.map_cons, hite, List.find?_cons, List.find?_cons, hb, ih]

/-- Updating the rows matching one key leaves lookups of any other key
untouched. -/
theorem find?_map_upd_other (l : List AccountRow) (id id2 : Nat)
    (hne : id2 ≠ id) (f : AccountRow → AccountRow)
    (hf : ∀ a, (f a).account_id = a.account_id) :
    (l.map (fun a => if a.account_id == id then f a else a)).find?
        (fun a => a.account_id == id2)
      = l.find? (fun a => a.account_id == id2) := by
  induction l with
  | nil => rfl
  | cons a tl ih =>
    cases hb : (a.account_id == id) with
    | true =>
      have h : a.account_id = id := by simpa using hb
      have hb2 : (a.account_id == id2) = false := by
        simp [h]
        omega
      have hb3 : ((f a).account_id == id2) = false := by
        rw [hf a]; exact hb2
      have hite : (if a.account_id == id then f a else a) = f a := by
        simp [hb]
      rw [List.map_cons, hite, List.find?_cons, List.find?_cons, hb2, hb3, ih]
    | false =>
      have hite : (if a.account_id == id then f a else a) = a := by
        simp [hb]
      rw [List.map_cons, hite, List.find?_cons, List.find?_cons]
      cases hb2 : (a.account_id == id2) with
      | true => rfl
      | false => exact ih

/-- A row whose funds were read exists, so an UPDATE on its key affects at
least one row. -/
theorem filterCount_pos_of_selectFunds (l : List AccountRow) (id : Nat)
    (f0 : Int) (h : selectFunds l id = some f0) :
    (l.filter (fun a => a.account_id == id)).length ≠ 0 := by
  unfold selectFunds at h
  rcases Option.map_eq_some'.mp h with ⟨a, ha, _⟩
  have hmem : a ∈ l := List.mem_of_find?_eq_some ha
  have hpred := List.find?_some ha
  have hmf : a ∈ l.filter (fun a => a.account_id == id) :=
    List.mem_filter.mpr ⟨hmem, hpred⟩
  intro hlen
  rw [List.length_eq_zero] at hlen
  simp [hlen] at hmf

/-- Setting the funds of one account rewrites exactly that account's stored
funds. -/
theorem selectFunds_updateSetFunds_same (l : List AccountRow) (id : Nat)
    (v f0 : Int) (h : selectFunds l id = some f0) :
    selectFunds (updateSetFunds l id v).2 id = some v := by
  unfold selectFunds at h
  unfold selectFunds updateSetFunds
  rw [find?_map_upd_same l id (fun a => { a with funds := v }) (fun a => rfl)]
  rcases Option.map_eq_some'.mp h with ⟨a, ha, _⟩
  simp [ha]

/-- Setting the funds of one account leaves every other account's stored
funds untouched. -/
theorem selectFunds_updateSetFunds_other (l : List AccountRow) (id id2 : Nat)
    (v : Int) (hne : id2 ≠ id) :
    selectFunds (updateSetFunds l id v).2 id2 = selectFunds l id2 := by
  unfold selectFunds updateSetFunds
  rw [find?_map_upd_other l id id2 hne (fun a => { a with funds := v })
    (fun a => rfl)]

/-- Crediting one account adds exactly the credited amount to that
account's stored funds. -/
theorem selectFunds_updateAddFunds_same (l : List AccountRow) (id : Nat)
    (d f0 : Int) (h : selectFunds l id = some f0) :
    selectFunds (updateAddFunds l id d).2 id = some (f0 + d) := by
  unfold selectFunds at h
  unfold selectFunds updateAddFunds
  rw [find?_map_upd_same l id (fun a => { a with funds := a.funds + d })
    (fun a => rfl)]
  rcases Option.map_eq_some'.mp h with ⟨a, ha, hfa⟩
  simp [ha, hfa]

/-- Crediting one account leaves every other account's stored funds
untouched. -/
theorem selectFunds_updateAddFunds_other (l : List AccountRow) (id id2 : Nat)
    (d : Int) (hne : id2 ≠ id) :
    selectFunds (updateAddFunds l id d).2 id2 = selectFunds l id2 := by
  unfold selectFunds updateAddFunds
  rw [find?_map_upd_other l id id2 hne
    (fun a => { a with funds := a.funds + d }) (fun a => rfl)]

/-- C1: for distinct existing sender and receiver accounts, a positive
amount no larger than the sender's funds and a zero fee (with a fresh
transaction id, as Transaction::new supplies), save_transaction succeeds:
the sender's stored funds drop by exactly the amount, the receiver's rise
by exactly the amount, exactly one new transactions row referencing that
sender, receiver and amount is appended, and the receipt carries the
post-transfer sender balance. -/
theorem save_transaction_transfer_ok (s : Store) (t : Transaction)
    (now fs fr : Int)
    (hamt : 0 < t.amount) (hfee : t.fee = 0)
    (hne : t.sender_account_id ≠ t.receiver_account_id)
    (hsf : selectFunds s.accounts t.sender_account_id = some fs)
    (hrf : selectFunds s.accounts t.receiver_account_id = some fr)
    (hen : t.amount ≤ fs)
    (hfresh : ∀ u ∈ s.transactions, u.transaction_id ≠ t.transaction_id) :
    (save_transaction s t now).1 =
        .ok { transaction_id := t.transaction_id, timestamp := now,
              sender_account_id := t.sender_account_id,
              receiver_account_id := t.receiver_account_id,
              sender_account_funds := fs - t.amount, fee := t.fee }
      ∧ selectFunds (save_transaction s t now).2.accounts t.sender_account_id
          = some (fs - t.amount)
      ∧ selectFunds (save_transaction s t now).2.accounts t.receiver_account_id
          = some (fr + t.amount)
      ∧ (save_transaction s t now).2.transactions
          = s.transactions ++ [{ t with timestamp := now }] := by
  have h0 : ¬ t.amount = 0 := by omega
  have h1 : ¬ t.amount < 0 := by omega
  have h2 : ¬ t.fee < 0 := by omega
  have h3 : ¬ (t.fee ≠ 0) := by omega
  have hcount1 : ¬ (updateSetFunds s.accounts t.sender_account_id
      (fs - (t.amount + t.fee))).1 = 0 := by
    unfold updateSetFunds
    exact filterCount_pos_of_selectFunds s.accounts t.sender_account_id fs hsf
  have hrf1 : selectFunds (updateSetFunds s.accounts t.sender_account_id
      (fs - (t.amount + t.fee))).2 t.receiver_account_id = some fr := by
    rw [selectFunds_updateSetFunds_other _ _ _ _ (fun hc => hne hc.symm)]
    exact hrf
  have hcount2 : ¬ (updateAddFunds
      (updateSetFunds s.accounts t.sender_account_id
        (fs - (t.amount + t.fee))).2 t.receiver_account_id t.amount).1 = 0 := by
    unfold updateAddFunds
    exact filterCount_pos_of_selectFunds _ _ fr hrf1
  have hins : insertTransaction s.transactions { t with timestamp := now }
      = some (s.transactions ++ [{ t with timestamp := now }]) := by
    unfold insertTransaction
    rw [if_neg]
    push_neg
    refine ⟨?_, hamt, hfee.ge⟩
    intro hc
    rw [List.any_eq_true] at hc
    rcases hc with ⟨u, hu, hbeq⟩
    exact hfresh u hu (by simpa using hbeq)
  have hnn : ¬ fs - (t.amount + t.fee) < 0 := by omega
  have hst : save_transaction s t now =
      (.ok { transaction_id := t.transaction_id, timestamp := now,
             sender_account_id := t.sender_account_id,
             receiver_account_id := t.receiver_account_id,
             sender_account_funds := fs - (t.amount + t.fee), fee := t.fee },
       { accounts := (updateAddFunds
            (updateSetFunds s.accounts t.sender_account_id
              (fs - (t.amount + t.fee))).2 t.receiver_account_id t.amount).2,
         transactions := s.transactions ++ [{ t with timestamp := now }] }) := by
    unfold save_transaction
    rw [if_neg h0, if_neg h1, if_neg h2, if_neg hne, if_neg h3, hsf]
    simp only [if_neg hnn, if_neg hcount1, if_neg hcount2, hins]
  refine ⟨?_, ?_, ?_, ?_⟩
  · rw [hst]
    simp [hfee]
  · rw [hst]
    have := selectFunds_updateAddFunds_other
      (updateSetFunds s.accounts t.sender_account_id
        (fs - (t.amount + t.fee))).2 t.receiver_account_id
      t.sender_account_id t.amount hne
    simp only [this]
    have h4 := selectFunds_updateSetFunds_same s.accounts t.sender_account_id
      (fs - (t.amount + t.fee)) fs hsf
    rw [h4, hfee]
    norm_num
  · rw [hst]
    have := selectFunds_updateAddFunds_same _ t.receiver_account_id t.amount fr hrf1
    simpa using this
  · rw [hst]

/-- C2: with a zero fee, distinct parties and an existing sender whose
funds are below the amount, save_transaction returns
SenderAccountNotEnoughFunds and leaves the store completely unchanged. -/
theorem save_transaction_insufficient_funds (s : Store) (t : Transaction)
    (now fs : Int)
    (hamt : 0 < t.amount) (hfee : t.fee = 0)
    (hne : t.sender_account_id ≠ t.receiver_account_id)
    (hsf : selectFunds s.accounts t.sender_account_id = some fs)
    (hlt : fs < t.amount) :
    save_transaction s t now = (.err .SenderAccountNotEnoughFunds, s) := by
  have h0 : ¬ t.amount = 0 := by omega
  have h1 : ¬ t.amount < 0 := by omega
  have h2 : ¬ t.fee < 0 := by omega
  have h3 : ¬ (t.fee ≠ 0) := by omega
  have hnn : fs - (t.amount + t.fee) < 0 := by omega
  unfold save_transaction
  rw [if_neg h0, if_neg h1, if_neg h2, if_neg hne, if_neg h3, hsf]
  simp only [if_pos hnn]

/-- C4: the validation checks fire in order amount-zero, amount-negative,
fee-negative, self-transfer, each before any store access and each leaving
the store unchanged, for every store state. -/
theorem save_transaction_validation_order (s : Store) (t : Transaction)
    (now : Int) :
    (t.amount = 0 → save_transaction s t now = (.err .AmountIsZero, s))
  ∧ (t.amount < 0 → save_transaction s t now = (.err .AmountIsNegative, s))
  ∧ (0 < t.amount → t.fee < 0 →
      save_transaction s t now = (.err .FeeIsNegative, s))
  ∧ (0 < t.amount → 0 ≤ t.fee →
      t.sender_account_id = t.receiver_account_id →
      save_transaction s t now = (.err .SenderReceiverAreTheSame, s)) := by
  refine ⟨?_, ?_, ?_, ?_⟩
  · intro h
    unfold save_transaction
    rw [if_pos h]
  · intro h
    unfold save_transaction
    rw [if_neg (by omega), if_pos h]
  · intro h hf
    unfold save_transaction
    rw [if_neg (by omega), if_neg (by omega), if_pos hf]
  · intro h hf hsr
    unfold save_transaction
    rw [if_neg (by omega), if_neg (by omega), if_neg (by omega), if_pos hsr]

theorem save_transaction_fee_zero_not_assert (s : Store) (t : Transaction)
    (now : Int) (hfee : t.fee = 0) :
    (save_transaction s t now).1 ≠ .assertFailed := by
  simp only [save_transaction]
  repeat' split
  all_goals try simp_all

theorem save_transaction_fee_zero_not_fee_err (s : Store) (t : Transaction)
    (now : Int) (hfee : t.fee = 0) :
    (save_transaction s t now).1 ≠ .err .FeeIsNegative := by
  simp only [save_transaction]
  repeat' split
  all_goals try simp_all

/-- C7: get_transaction returns TransactionDoesNotExist when no row has
the requested id, PermissionDenied only when the row exists and the caller
is neither sender nor receiver, and the row itself otherwise; a
PermissionDenied result implies the row exists, so absence never yields
PermissionDenied. -/
theorem get_transaction_cases (s : Store) (aid tid : Nat) :
    ((∀ u ∈ s.transactions, u.transaction_id ≠ tid) →
        get_transaction s aid tid = .error .TransactionDoesNotExist)
  ∧ (∀ u, s.transactions.find? (fun w => w.transaction_id == tid) = some u →
      (u.sender_account_id = aid ∨ u.receiver_account_id = aid) →
      get_transaction s aid tid = .ok u)
  ∧ (∀ u, s.transactions.find? (fun w => w.transaction_id == tid) = some u →
      u.sender_account_id ≠ aid → u.receiver_account_id ≠ aid →
      get_transaction s aid tid = .error .PermissionDenied)
  ∧ (get_transaction s aid tid = .error .PermissionDenied →
      ∃ u ∈ s.transactions, u.transaction_id = tid) := by
  refine ⟨?_, ?_, ?_, ?_⟩
  · intro habs
    have hnone : s.transactions.find? (fun w => w.transaction_id == tid)
        = none := by
      rw [List.find?_eq_none]
      intro u hu
      simpa using habs u hu
    unfold get_transaction
    rw [hnone]
  · intro u hu hparty
    unfold get_transaction
    rw [hu]
    have hcond : (u.sender_account_id == aid || u.receiver_account_id == aid)
        = true := by
      rcases hparty with h | h <;> simp [h]
    simp [hcond]
  · intro u hu hs hr
    unfold get_transaction
    rw [hu]
    have hcond : (u.sender_account_id == aid || u.receiver_account_id == aid)
        = false := by
      simp [hs, hr]
    simp [hcond]
  · intro hpd
    unfold get_transaction at hpd
    cases hfind : s.transactions.find? (fun w => w.transaction_id == tid) with
    | none => rw [hfind] at hpd; cases hpd
    | some u =>
      refine ⟨u, List.mem_of_find?_eq_some hfind, ?_⟩
      simpa using List.find?_some hfind

theorem nonneg_updateSetFunds (l : List AccountRow) (id : Nat) (v : Int)
    (hv : 0 ≤ v) (h : ∀ c ∈ l, 0 ≤ c.funds) :
    ∀ b ∈ (updateSetFunds l id v).2, 0 ≤ b.funds := by
  intro b hb
  unfold updateSetFunds at hb
  rcases List.mem_map.mp hb with ⟨c, hc, hbc⟩
  by_cases hcid : (c.account_id == id) = true
  · rw [if_pos hcid] at hbc
    rw [← hbc]
    exact hv
  · rw [if_neg hcid] at hbc
    rw [← hbc]
    exact h c hc

theorem nonneg_updateAddFunds (l : List AccountRow) (id : Nat) (d : Int)
    (hd : 0 ≤ d) (h : ∀ c ∈ l, 0 ≤ c.funds) :
    ∀ b ∈ (updateAddFunds l id d).2, 0 ≤ b.funds := by
  intro b hb
  unfold updateAddFunds at hb
  rcases List.mem_map.mp hb with ⟨c, hc, hbc⟩
  by_cases hcid : (c.account_id == id) = true
  · rw [if_pos hcid] at hbc
    rw [← hbc]
    have := h c hc
    simp only []
    omega
  · rw [if_neg hcid] at hbc
    rw [← hbc]
    exact h c hc

/-- C3: both mutating operations preserve the non-negative-funds
invariant: if every stored account has funds at least zero before
save_account or save_transaction, the same holds afterwards. -/
theorem ops_preserve_nonneg_funds (s : Store) (a : AccountRow) (t : Transaction)
    (now : Int) (hinv : ∀ b ∈ s.accounts, 0 ≤ b.funds) :
    (∀ b ∈ (save_account s a now).2.accounts, 0 ≤ b.funds)
  ∧ (∀ b ∈ (save_transaction s t now).2.accounts, 0 ≤ b.funds) := by
  constructor
  · unfold save_account insertAccount
    by_cases h : (s.accounts.any fun b => b.account_id == a.account_id) = true
        ∨ a.funds < 0
    · rw [if_pos h]
      exact hinv
    · rw [if_neg h]
      intro b hb
      rcases List.mem_append.mp hb with hb2 | hb2
      · exact hinv b hb2
      · have hba : b = a := by simpa using hb2
        subst hba
        push_neg at h
        exact h.2
  · simp only [save_transaction]
    repeat' split
    all_goals try exact hinv
    rename_i h0 h1 h2 hsr hf funds hsel hnn hc1 hc2 txs hins
    intro b hb
    exact nonneg_updateAddFunds _ _ _ (by omega)
      (nonneg_updateSetFunds _ _ _ (by omega) hinv) b hb

/-- C6 (amended): save_account fails with AccountAlreadyExists exactly
when the INSERT violates a table constraint - a duplicate account_id or
negative funds - in which case the store is unchanged; it never reports
the generic store error for a constraint violation, and on success the
new row is appended. -/
theorem save_account_error_characterization (s : Store) (a : AccountRow)
    (now : Int) :
    ((save_account s a now).1 = .error .AccountAlreadyExists
        ↔ (∃ b ∈ s.accounts, b.account_id = a.account_id) ∨ a.funds < 0)
  ∧ ((save_account s a now).1 ≠ .error .SQLError)
  ∧ ((save_account s a now).1 = .error .AccountAlreadyExists →
      (save_account s a now).2 = s)
  ∧ (∀ r, (save_account s a now).1 = .ok r →
      (save_account s a now).2.accounts = s.accounts ++ [a]) := by
  unfold save_account insertAccount
  by_cases h : (s.accounts.any fun b => b.account_id == a.account_id) = true
      ∨ a.funds < 0
  · rw [if_pos h]
    have hconv : (∃ b ∈ s.accounts, b.account_id = a.account_id)
        ∨ a.funds < 0 := by
      rcases h with h | h
      · left
        rcases List.any_eq_true.mp h with ⟨b, hb, hbeq⟩
        exact ⟨b, hb, by simpa using hbeq⟩
      · right; exact h
    exact ⟨iff_of_true rfl hconv, by simp, fun _ => rfl,
      fun r hr => absurd hr (by simp)⟩
  · rw [if_neg h]
    push_neg at h
    have hnot : ¬ ((∃ b ∈ s.accounts, b.account_id = a.account_id)
        ∨ a.funds < 0) := by
      rintro (⟨b, hb, hbeq⟩ | hlt)
      · exact h.1 (List.any_eq_true.mpr ⟨b, hb, by simpa using hbeq⟩)
      · exact absurd hlt (not_lt.mpr h.2)
    exact ⟨iff_of_false (by simp) hnot, by simp,
      fun hc => absurd hc (by simp), fun r hr => rfl⟩

/-- C5 (amended): get_transactions returns exactly the stored
transactions in which the account is sender or receiver with timestamp in
the inclusive range, in stored (insertion) order; the output is
timestamp-ascending whenever the stored sequence is. -/
theorem get_transactions_characterization (s : Store) (aid : Nat)
    (tstart tend : Int) :
    (∀ u, u ∈ get_transactions s aid tstart tend ↔
        u ∈ s.transactions
        ∧ (u.sender_account_id = aid ∨ u.receiver_account_id = aid)
        ∧ tstart ≤ u.timestamp ∧ u.timestamp ≤ tend)
  ∧ (List.Pairwise (fun u w => u.timestamp ≤ w.timestamp) s.transactions →
      List.Pairwise (fun u w => u.timestamp ≤ w.timestamp)
        (get_transactions s aid tstart tend)) := by
  constructor
  · intro u
    unfold get_transactions
    rw [List.mem_filter]
    constructor
    · rintro ⟨hmem, hcond⟩
      refine ⟨hmem, ?_⟩
      simp only [Bool.and_eq_true, Bool.or_eq_true, beq_iff_eq,
        decide_eq_true_eq] at hcond
      tauto
    · rintro ⟨hmem, hor, h1, h2⟩
      refine ⟨hmem, ?_⟩
      simp only [Bool.and_eq_true, Bool.or_eq_true, beq_iff_eq,
        decide_eq_true_eq]
      tauto
  · intro hsorted
    exact List.Pairwise.sublist (List.filter_sublist _) hsorted

theorem asUuid_num_ofNat (n : Nat) :
    Json.asUuid (.num (Int.ofNat n)) = some n := by
  simp only [Json.asUuid]
  rw [if_neg (show ¬ Int.ofNat n < 0 from Int.not_lt.mpr (Int.ofNat_nonneg n))]
  rfl

theorem asUuid_num_cast (n : Nat) :
    Json.asUuid (.num (n : Int)) = some n := by
  simp only [Json.asUuid]
  rw [if_neg (show ¬ (n : Int) < 0 from Int.not_lt.mpr (Int.natCast_nonneg n))]
  simp

/-- C9: encoding a protocol-version-1 request envelope to its JSON wire
form and decoding it again yields the original envelope, with version,
message id and payload preserved. -/
theorem client_packet_roundtrip (p : ClientMessagePacket) (h : p.v = 1) :
    ClientMessagePacket.from_json p.to_json = some p := by
  obtain ⟨v, mid, msg⟩ := p
  simp only at h
  subst h
  cases msg <;>
    simp [ClientMessagePacket.from_json, ClientMessagePacket.to_json,
      ClientMessage.toJson, ClientMessage.fromJson, Json.getField,
      Json.asInt, asUuid_num_ofNat, asUuid_num_cast, List.lookup, Option.bind]

theorem serverErrorOfTransactionError_inj (e : TransactionError)
    (h : serverErrorOfTransactionError e
        = serverErrorOfTransactionError .FeeIsNegative) :
    e = .FeeIsNegative := by
  cases e <;> first
    | rfl
    | exact absurd h (by decide)

/-- C10: the wire CreateTransaction request carries no fee and the
dispatch loop builds the transfer with fee zero, so dispatching it always
produces a response (the unimplemented-fee assertion cannot fire) whose
message id echoes the request and whose payload is never the FeeIsNegative
error. -/
theorem dispatch_create_transaction_no_fee_errors (s : Store)
    (m : ClientMessagePacket) (now : Int) (freshId : Nat)
    (sid rid : Nat) (amt : Int)
    (hmsg : m.message = .CreateTransaction sid rid amt) :
    ∃ resp s2, message_dispatch s m now freshId = some (resp, s2)
      ∧ resp.message_id = m.message_id
      ∧ ∀ r, resp.message = .CreateTransactionResponse r →
          r ≠ .error (serverErrorOfTransactionError .FeeIsNegative) := by
  set t : Transaction :=
    { transaction_id := freshId, timestamp := now,
      sender_account_id := sid, receiver_account_id := rid,
      amount := amt, fee := 0 } with ht
  have hfee : t.fee = 0 := rfl
  have hna := save_transaction_fee_zero_not_assert s t now hfee
  have hnf := save_transaction_fee_zero_not_fee_err s t now hfee
  have hred : message_dispatch s m now freshId =
      (match save_transaction s t now with
       | (.ok r, s1) =>
         some ((ServerMessage.CreateTransactionResponse (.ok r)).as_resp_for m,
           s1)
       | (.err e, s1) =>
         some ((ServerMessage.CreateTransactionResponse
           (.error (serverErrorOfTransactionError e))).as_resp_for m, s1)
       | (.assertFailed, _) => none) := by
    unfold message_dispatch
    rw [hmsg]
  rcases hsv : save_transaction s t now with ⟨res, s1⟩
  rw [hsv] at hna hnf hred
  cases res with
  | ok r =>
    refine ⟨(ServerMessage.CreateTransactionResponse (.ok r)).as_resp_for m,
      s1, ?_, rfl, ?_⟩
    · rw [hred]
    · intro r2 hr2
      cases hr2
      intro hc
      cases hc
  | err e =>
    refine ⟨(ServerMessage.CreateTransactionResponse
      (.error (serverErrorOfTransactionError e))).as_resp_for m, s1, ?_, rfl,
      ?_⟩
    · rw [hred]
    · intro r2 hr2
      cases hr2
      intro hc
      have he : e = .FeeIsNegative :=
        serverErrorOfTransactionError_inj e (by injection hc)
      subst he
      exact hnf rfl
  | assertFailed =>
    exact absurd rfl hna

/-- C8 (amended): a transfer with positive fee that passes the amount and
self-transfer validations aborts at the unimplemented-fee assertion before
any store access with the store unchanged, and with a zero fee the
assertion never fires. -/
theorem save_transaction_fee_assert (s : Store) (t : Transaction) (now : Int) :
    (0 < t.amount → t.sender_account_id ≠ t.receiver_account_id →
      0 < t.fee → save_transaction s t now = (.assertFailed, s))
  ∧ (t.fee = 0 → (save_transaction s t now).1 ≠ .assertFailed) := by
  constructor
  · intro hamt hne hf
    unfold save_transaction
    rw [if_neg (by omega), if_neg (by omega), if_neg (by omega), if_neg hne,
      if_pos (by omega)]
  · intro hfee
    exact save_transaction_fee_zero_not_assert s t now hfee

/-- C8 counterexample: a transfer with positive fee but zero amount is
answered with the typed error AmountIsZero, not an assertion failure, so
the claim as stated over every positive-fee transfer is false. -/
theorem save_transaction_fee_counterexample :
    (0 : Int) <
      ({ transaction_id := 0, timestamp := 0, sender_account_id := 1,
         receiver_account_id := 2, amount := 0, fee := 1 } : Transaction).fee
    ∧ save_transaction { accounts := [], transactions := [] }
        { transaction_id := 0, timestamp := 0, sender_account_id := 1,
          receiver_account_id := 2, amount := 0, fee := 1 } 0
      = (.err .AmountIsZero, { accounts := [], transactions := [] }) := by
  decide

/-- C5 counterexample: a store whose rows are not timestamp-sorted is
returned by get_transactions in stored order, which is not ascending by
timestamp, refuting the unconditional ordering claim (the query has no
ORDER BY). -/
theorem get_transactions_order_counterexample :
    get_transactions
        { accounts := [],
          transactions :=
            [{ transaction_id := 1, timestamp := 5, sender_account_id := 7,
               receiver_account_id := 8, amount := 1, fee := 0 },
             { transaction_id := 2, timestamp := 3, sender_account_id := 7,
               receiver_account_id := 9, amount := 1, fee := 0 }] }
        7 0 10
      = [{ transaction_id := 1, timestamp := 5, sender_account_id := 7,
           receiver_account_id := 8, amount := 1, fee := 0 },
         { transaction_id := 2, timestamp := 3, sender_account_id := 7,
           receiver_account_id := 9, amount := 1, fee := 0 }]
    ∧ ¬ List.Pairwise (fun u w => u.timestamp ≤ w.timestamp)
        (get_transactions
          { accounts := [],
            transactions :=
              [{ transaction_id := 1, timestamp := 5, sender_account_id := 7,
                 receiver_account_id := 8, amount := 1, fee := 0 },
               { transaction_id := 2, timestamp := 3, sender_account_id := 7,
                 receiver_account_id := 9, amount := 1, fee := 0 }] }
          7 0 10) := by
  decide

/-- C6 counterexample: inserting an account with negative funds into an
empty store violates the CHECK constraint, which the code also maps to
AccountAlreadyExists even though no account with that id exists. -/
theorem save_account_constraint_counterexample :
    (save_account { accounts := [], transactions := [] }
        { account_id := 0, created := 0, funds := -1 } 0).1
      = .error .AccountAlreadyExists
    ∧ ∀ b ∈ ({ accounts := [], transactions := [] } : Store).accounts,
        b.account_id ≠ 0 := by
  decide

/-- Witness for C1 at a concrete two-account store. -/
theorem save_transaction_transfer_ok_witness :
    (save_transaction
        { accounts := [{ account_id := 1, created := 0, funds := 100 },
                       { account_id := 2, created := 0, funds := 0 }],
          transactions := [] }
        { transaction_id := 5, timestamp := 0, sender_account_id := 1,
          receiver_account_id := 2, amount := 40, fee := 0 } 7).1
      = .ok { transaction_id := 5, timestamp := 7, sender_account_id := 1,
              receiver_account_id := 2, sender_account_funds := 60, fee := 0 }
    ∧ selectFunds (save_transaction
        { accounts := [{ account_id := 1, created := 0, funds := 100 },
                       { account_id := 2, created := 0, funds := 0 }],
          transactions := [] }
        { transaction_id := 5, timestamp := 0, sender_account_id := 1,
          receiver_account_id := 2, amount := 40, fee := 0 } 7).2.accounts 1
      = some 60
    ∧ selectFunds (save_transaction
        { accounts := [{ account_id := 1, created := 0, funds := 100 },
                       { account_id := 2, created := 0, funds := 0 }],
          transactions := [] }
        { transaction_id := 5, timestamp := 0, sender_account_id := 1,
          receiver_account_id := 2, amount := 40, fee := 0 } 7).2.accounts 2
      = some 40
    ∧ (save_transaction
        { accounts := [{ account_id := 1, created := 0, funds := 100 },
                       { account_id := 2, created := 0, funds := 0 }],
          transactions := [] }
        { transaction_id := 5, timestamp := 0, sender_account_id := 1,
          receiver_account_id := 2, amount := 40, fee := 0 } 7).2.transactions
      = [{ transaction_id := 5, timestamp := 7, sender_account_id := 1,
           receiver_account_id := 2, amount := 40, fee := 0 }] := by
  have h := save_transaction_transfer_ok
    { accounts := [{ account_id := 1, created := 0, funds := 100 },
                   { account_id := 2, created := 0, funds := 0 }],
      transactions := [] }
    { transaction_id := 5, timestamp := 0, sender_account_id := 1,
      receiver_account_id := 2, amount := 40, fee := 0 } 7 100 0
    (by decide) rfl (by decide) rfl rfl (by decide) (by decide)
  simpa using h

/-- Witness for C2 at a concrete underfunded store. -/
theorem save_transaction_insufficient_funds_witness :
    save_transaction
        { accounts := [{ account_id := 1, created := 0, funds := 60 },
                       { account_id := 2, created := 0, funds := 0 }],
          transactions := [] }
        { transaction_id := 5, timestamp := 0, sender_account_id := 1,
          receiver_account_id := 2, amount := 1000, fee := 0 } 7
      = (.err .SenderAccountNotEnoughFunds,
         { accounts := [{ account_id := 1, created := 0, funds := 60 },
                        { account_id := 2, created := 0, funds := 0 }],
           transactions := [] }) :=
  save_transaction_insufficient_funds
    { accounts := [{ account_id := 1, created := 0, funds := 60 },
                   { account_id := 2, created := 0, funds := 0 }],
      transactions := [] }
    { transaction_id := 5, timestamp := 0, sender_account_id := 1,
      receiver_account_id := 2, amount := 1000, fee := 0 } 7 60
    (by decide) rfl (by decide) rfl (by decide)

/-- Witness for C3 at a concrete store satisfying the invariant. -/
theorem ops_preserve_nonneg_funds_witness :
    (∀ b ∈ (save_account
        { accounts := [{ account_id := 1, created := 0, funds := 100 }],
          transactions := [] }
        { account_id := 3, created := 7, funds := 0 } 7).2.accounts,
        0 ≤ b.funds)
    ∧ (∀ b ∈ (save_transaction
        { accounts := [{ account_id := 1, created := 0, funds := 100 }],
          transactions := [] }
        { transaction_id := 5, timestamp := 0, sender_account_id := 1,
          receiver_account_id := 2, amount := 40, fee := 0 } 7).2.accounts,
        0 ≤ b.funds) :=
  ops_preserve_nonneg_funds
    { accounts := [{ account_id := 1, created := 0, funds := 100 }],
      transactions := [] }
    { account_id := 3, created := 7, funds := 0 }
    { transaction_id := 5, timestamp := 0, sender_account_id := 1,
      receiver_account_id := 2, amount := 40, fee := 0 } 7
    (by decide)

/-- Witness for C4: the four validation errors at concrete inputs. -/
theorem save_transaction_validation_order_witness :
    save_transaction { accounts := [], transactions := [] }
        { transaction_id := 0, timestamp := 0, sender_account_id := 1,
          receiver_account_id := 2, amount := 0, fee := 0 } 0
      = (.err .AmountIsZero, { accounts := [], transactions := [] })
    ∧ save_transaction { accounts := [], transactions := [] }
        { transaction_id := 0, timestamp := 0, sender_account_id := 1,
          receiver_account_id := 2, amount := -5, fee := 0 } 0
      = (.err .AmountIsNegative, { accounts := [], transactions := [] })
    ∧ save_transaction { accounts := [], transactions := [] }
        { transaction_id := 0, timestamp := 0, sender_account_id := 1,
          receiver_account_id := 2, amount := 5, fee := -1 } 0
      = (.err .FeeIsNegative, { accounts := [], transactions := [] })
    ∧ save_transaction { accounts := [], transactions := [] }
        { transaction_id := 0, timestamp := 0, sender_account_id := 1,
          receiver_account_id := 1, amount := 5, fee := 0 } 0
      = (.err .SenderReceiverAreTheSame,
         { accounts := [], transactions := [] }) :=
  ⟨(save_transaction_validation_order { accounts := [], transactions := [] }
      { transaction_id := 0, timestamp := 0, sender_account_id := 1,
        receiver_account_id := 2, amount := 0, fee := 0 } 0).1 rfl,
   (save_transaction_validation_order { accounts := [], transactions := [] }
      { transaction_id := 0, timestamp := 0, sender_account_id := 1,
        receiver_account_id := 2, amount := -5, fee := 0 } 0).2.1 (by decide),
   (save_transaction_validation_order { accounts := [], transactions := [] }
      { transaction_id := 0, timestamp := 0, sender_account_id := 1,
        receiver_account_id := 2, amount := 5, fee := -1 } 0).2.2.1
     (by decide) (by decide),
   (save_transaction_validation_order { accounts := [], transactions := [] }
      { transaction_id := 0, timestamp := 0, sender_account_id := 1,
        receiver_account_id := 1, amount := 5, fee := 0 } 0).2.2.2
     (by decide) (by decide) rfl⟩

/-- Witness for C5 at a concrete one-row store. -/
theorem get_transactions_characterization_witness :
    ({ transaction_id := 1, timestamp := 2, sender_account_id := 7,
       receiver_account_id := 8, amount := 1, fee := 0 } : Transaction)
      ∈ get_transactions
          { accounts := [],
            transactions :=
              [{ transaction_id := 1, timestamp := 2, sender_account_id := 7,
                 receiver_account_id := 8, amount := 1, fee := 0 }] }
          7 0 10
      ↔ ({ transaction_id := 1, timestamp := 2, sender_account_id := 7,
           receiver_account_id := 8, amount := 1, fee := 0 } : Transaction)
        ∈ ({ accounts := [],
             transactions :=
               [{ transaction_id := 1, timestamp := 2, sender_account_id := 7,
                  receiver_account_id := 8, amount := 1, fee := 0 }] } :
            Store).transactions
        ∧ (({ transaction_id := 1, timestamp := 2, sender_account_id := 7,
              receiver_account_id := 8, amount := 1, fee := 0 } :
             Transaction).sender_account_id = 7
           ∨ ({ transaction_id := 1, timestamp := 2, sender_account_id := 7,
                receiver_account_id := 8, amount := 1, fee := 0 } :
              Transaction).receiver_account_id = 7)
        ∧ (0 : Int) ≤
          ({ transaction_id := 1, timestamp := 2, sender_account_id := 7,
             receiver_account_id := 8, amount := 1, fee := 0 } :
           Transaction).timestamp
        ∧ ({ transaction_id := 1, timestamp := 2, sender_account_id := 7,
             receiver_account_id := 8, amount := 1, fee := 0 } :
            Transaction).timestamp ≤ 10 :=
  (get_transactions_characterization
    { accounts := [],
      transactions :=
        [{ transaction_id := 1, timestamp := 2, sender_account_id := 7,
           receiver_account_id := 8, amount := 1, fee := 0 }] }
    7 0 10).1
    { transaction_id := 1, timestamp := 2, sender_account_id := 7,
      receiver_account_id := 8, amount := 1, fee := 0 }

/-- Witness for C6 at a concrete duplicate-id store. -/
theorem save_account_error_characterization_witness :
    (save_account
        { accounts := [{ account_id := 1, created := 0, funds := 0 }],
          transactions := [] }
        { account_id := 1, created := 3, funds := 0 } 3).1
      = .error .AccountAlreadyExists
    ∧ (save_account
        { accounts := [{ account_id := 1, created := 0, funds := 0 }],
          transactions := [] }
        { account_id := 1, created := 3, funds := 0 } 3).2
      = { accounts := [{ account_id := 1, created := 0, funds := 0 }],
          transactions := [] }
    ∧ (save_account
        { accounts := [{ account_id := 1, created := 0, funds := 0 }],
          transactions := [] }
        { account_id := 1, created := 3, funds := 0 } 3).1
      ≠ .error .SQLError :=
  ⟨(save_account_error_characterization
      { accounts := [{ account_id := 1, created := 0, funds := 0 }],
        transactions := [] }
      { account_id := 1, created := 3, funds := 0 } 3).1.mpr (by decide),
   (save_account_error_characterization
      { accounts := [{ account_id := 1, created := 0, funds := 0 }],
        transactions := [] }
      { account_id := 1, created := 3, funds := 0 } 3).2.2.1 (by decide),
   (save_account_error_characterization
      { accounts := [{ account_id := 1, created := 0, funds := 0 }],
        transactions := [] }
      { account_id := 1, created := 3, funds := 0 } 3).2.1⟩

/-- Witness for C7: the three outcomes at a concrete one-row store. -/
theorem get_transaction_cases_witness :
    get_transaction
        { accounts := [],
          transactions :=
            [{ transaction_id := 9, timestamp := 0, sender_account_id := 1,
               receiver_account_id := 2, amount := 5, fee := 0 }] }
        1 9
      = .ok { transaction_id := 9, timestamp := 0, sender_account_id := 1,
              receiver_account_id := 2, amount := 5, fee := 0 }
    ∧ get_transaction
        { accounts := [],
          transactions :=
            [{ transaction_id := 9, timestamp := 0, sender_account_id := 1,
               receiver_account_id := 2, amount := 5, fee := 0 }] }
        3 9
      = .error .PermissionDenied
    ∧ get_transaction
        { accounts := [],
          transactions :=
            [{ transaction_id := 9, timestamp := 0, sender_account_id := 1,
               receiver_account_id := 2, amount := 5, fee := 0 }] }
        1 8
      = .error .TransactionDoesNotExist :=
  ⟨(get_transaction_cases
      { accounts := [],
        transactions :=
          [{ transaction_id := 9, timestamp := 0, sender_account_id := 1,
             receiver_account_id := 2, amount := 5, fee := 0 }] }
      1 9).2.1
      { transaction_id := 9, timestamp := 0, sender_account_id := 1,
        receiver_account_id := 2, amount := 5, fee := 0 }
      rfl (Or.inl rfl),
   (get_transaction_cases
      { accounts := [],
        transactions :=
          [{ transaction_id := 9, timestamp := 0, sender_account_id := 1,
             receiver_account_id := 2, amount := 5, fee := 0 }] }
      3 9).2.2.1
      { transaction_id := 9, timestamp := 0, sender_account_id := 1,
        receiver_account_id := 2, amount := 5, fee := 0 }
      rfl (by decide) (by decide),
   (get_transaction_cases
      { accounts := [],
        transactions :=
          [{ transaction_id := 9, timestamp := 0, sender_account_id := 1,
             receiver_account_id := 2, amount := 5, fee := 0 }] }
      1 8).1 (by decide)⟩

/-- Witness for C8 at concrete positive-fee and zero-fee transfers. -/
theorem save_transaction_fee_assert_witness :
    save_transaction { accounts := [], transactions := [] }
        { transaction_id := 0, timestamp := 0, sender_account_id := 1,
          receiver_account_id := 2, amount := 5, fee := 3 } 0
      = (.assertFailed, { accounts := [], transactions := [] })
    ∧ (save_transaction { accounts := [], transactions := [] }
        { transaction_id := 0, timestamp := 0, sender_account_id := 1,
          receiver_account_id := 2, amount := 5, fee := 0 } 0).1
      ≠ .assertFailed :=
  ⟨(save_transaction_fee_assert { accounts := [], transactions := [] }
      { transaction_id := 0, timestamp := 0, sender_account_id := 1,
        receiver_account_id := 2, amount := 5, fee := 3 } 0).1
      (by decide) (by decide) (by decide),
   (save_transaction_fee_assert { accounts := [], transactions := [] }
      { transaction_id := 0, timestamp := 0, sender_account_id := 1,
        receiver_account_id := 2, amount := 5, fee := 0 } 0).2 rfl⟩

/-- Witness for C9 at a concrete CreateTransaction envelope. -/
theorem client_packet_roundtrip_witness :
    ClientMessagePacket.from_json
        (ClientMessagePacket.to_json
          { v := 1, message_id := 42,
            message := .CreateTransaction 1 2 40 })
      = some { v := 1, message_id := 42, message := .CreateTransaction 1 2 40 } :=
  client_packet_roundtrip
    { v := 1, message_id := 42, message := .CreateTransaction 1 2 40 } rfl

/-- Witness for C10 at a concrete CreateTransaction request. -/
theorem dispatch_create_transaction_no_fee_errors_witness :
    ∃ resp s2,
      message_dispatch
          { accounts := [{ account_id := 1, created := 0, funds := 100 },
                         { account_id := 2, created := 0, funds := 0 }],
            transactions := [] }
          { v := 1, message_id := 3, message := .CreateTransaction 1 2 40 }
          7 5
        = some (resp, s2)
      ∧ resp.message_id =
          ({ v := 1, message_id := 3,
             message := .CreateTransaction 1 2 40 } :
           ClientMessagePacket).message_id
      ∧ ∀ r, resp.message = .CreateTransactionResponse r →
          r ≠ .error (serverErrorOfTransactionError .FeeIsNegative) :=
  dispatch_create_transaction_no_fee_errors
    { accounts := [{ account_id := 1, created := 0, funds := 100 },
                   { account_id := 2, created := 0, funds := 0 }],
      transactions := [] }
    { v := 1, message_id := 3, message := .CreateTransaction 1 2 40 }
    7 5 1 2 40 rfl
